import Mathlib

/-
Verification of the authentication / session-lifecycle core of the
natours-project backend (src/controllers/authController.js together with
the user model).

Conventions of the embedding:
* The credential store is a list of Identity records; findOne/findById are
  List.find?, save replaces every record carrying the saved id.
* JavaScript "falsy" string fields of a request body are modelled as the
  empty string; optional non-string fields are Option values.
* The external one-way primitives (bcrypt, sha256, the jwt codec) are out
  of scope per the spec and are modelled as injective tagged digests.
* Handlers return Except AppError together with the updated store; the
  Express next(err) boundary is the Except.error constructor.  Where the
  source passes a status code as a second argument to next, that argument
  is dropped, exactly as Express drops it, so the constructed AppError has
  statusCode none.
* Several pieces of the user model the controller relies on are absent
  from the userModel revision shipped in the repository snapshot (the file
  defines only the schema fields name/email/photo/password/passwordConfirm,
  while the controller calls userSchema methods and reads fields it does
  not declare); those pieces are modelled from the spec and marked
  "Modelled from the spec:" on their doc comments.
-/

namespace Natours

/-- Model of the external bcrypt hash (out-of-scope black box, spec section 1):
an injective one-way digest, tagged so that a hash is never equal to any
plaintext of the same length. -/
def bcryptHash (s : String) : String := "bcrypt:" ++ s

/-- Model of the external crypto sha256 hex digest used for reset tokens
(out-of-scope black box, spec section 1). -/
def sha256Hex (s : String) : String := "sha256:" ++ s

/-- Model of the external validator.isEmail check used by the email field
of the userSchema. -/
def isEmail (s : String) : Bool := s.data.contains '@'

/-- The case-folding the schema option lowercase:true applies to the email
before it is validated and stored. -/
def lowercase (s : String) : String := String.mk (s.data.map Char.toLower)

/-- A user record of the credential store.  Fields name, email, photo,
password and passwordConfirm are declared by the userSchema in the
repository snapshot; passwordChangedAt, role and the two password-reset
fields are the schema fields of the user model at the controller revision
(spec section 3), which the controller reads and writes. -/
structure Identity where
  id : Nat
  name : String
  email : String
  photo : Option String
  password : Option String
  passwordConfirm : Option String
  passwordChangedAt : Option Nat
  role : String
  passwordResetToken : Option String
  passwordResetExpires : Option Nat
deriving Repr, DecidableEq

/-- The operational error forwarded to the Express error boundary
(utils/appError.js is not part of the snapshot; modelled from the spec,
sections 6 and 7: a message plus an optional numeric status code). -/
structure AppError where
  message : String
  statusCode : Option Nat
deriving Repr, DecidableEq

/-- Modelled from the spec: the global error handler is not part of the
snapshot; per spec sections 6 and 7 the JSON envelope uses the error object
numeric status code as the HTTP status and falls back to 500 when the error
carries none. -/
def surfacedStatus (e : AppError) : Nat := e.statusCode.getD 500

/-- User.findOne with an email filter. -/
def findOneByEmail (store : List Identity) (email : String) : Option Identity :=
  store.find? (fun u => u.email == email)

/-- User.findById. -/
def findById (store : List Identity) (id : Nat) : Option Identity :=
  store.find? (fun u => u.id == id)

/-- user.save persistence effect: the store record carrying the saved id is
replaced by the saved document. -/
def saveDoc (store : List Identity) (u : Identity) : List Identity :=
  store.map (fun v => if v.id == u.id then u else v)

/-- A signed session token: jwt.sign embeds the payload {id} plus the
issued-at stamp, and a signature derived from the server secret. -/
structure Token where
  id : Nat
  iat : Nat
  sig : String
deriving Repr, DecidableEq

/-- The payload jwt.verify recovers from a valid token. -/
structure JwtPayload where
  id : Nat
  iat : Nat
deriving Repr, DecidableEq

/-- Model of the signature of the external jwt codec (spec section 6). -/
def tokenSig (secret : String) (id iat : Nat) : String :=
  sha256Hex (secret ++ ":" ++ toString id ++ ":" ++ toString iat)

/-- signToken (authController lines 9-13): signs {id} with the server
secret; the codec stamps the issue time into the payload. -/
def signToken (secret : String) (id iat : Nat) : Token :=
  { id := id, iat := iat, sig := tokenSig secret id iat }

/-- Model of jwt.verify of the external codec: recovers the payload iff the
signature matches the server secret.  The time-to-live expiry check is
internal to the external codec and not modelled (no claim depends on it). -/
def jwtVerify (secret : String) (t : Token) : Option JwtPayload :=
  if t.sig == tokenSig secret t.id t.iat then some { id := t.id, iat := t.iat }
  else none

/-- A success envelope: HTTP status, the fresh token, and the serialized
user object. -/
structure Response where
  statusCode : Nat
  token : Token
  user : Identity
deriving Repr, DecidableEq

/-- createAndSendToken (authController lines 15-37): signs a token for the
user id, blanks the password field of the user object before serializing
it, and answers with the given status code.  The cookie plumbing is
HTTP-boundary glue and is not modelled. -/
def createAndSendToken (secret : String) (now : Nat) (user : Identity)
    (statusCode : Nat) : Response :=
  let token := signToken secret user.id now
  let user := { user with password := none }
  { statusCode := statusCode, token := token, user := user }

/-- The request body of signup (authController lines 40-48): the controller
forwards exactly these request-body fields to User.create. -/
structure SignupBody where
  name : String
  email : String
  password : String
  passwordConfirm : String
  passwordChangedAt : Option Nat
  role : Option String
deriving Repr, DecidableEq

/-- A mongoose ValidationError surfaced through the error boundary with
status 400 (spec section 7 taxonomy). -/
def validationError (m : String) : AppError :=
  { message := m, statusCode := some 400 }

/-- The schema validation run on save: required name, required well-formed
email, required password of minimal length 8, required passwordConfirm
(userSchema of the snapshot; the mongoose required validator rejects the
empty string).  Modelled from the spec: the passwordConfirm matching
validator (password must equal passwordConfirm, spec section 4.1) belongs
to the user model at the controller revision and is absent from the
snapshot schema file. -/
def validateDoc (u : Identity) : Option AppError :=
  if u.name = "" then some (validationError "A user must have a name")
  else if u.email = "" then some (validationError "A user must have an email")
  else if !(isEmail u.email) then some (validationError "Please enter a valid email")
  else match u.password with
    | none => some (validationError "please enter a password")
    | some p =>
      if p = "" then some (validationError "please enter a password")
      else if p.length < 8 then some (validationError "password below minlength")
      else match u.passwordConfirm with
        | none => some (validationError "please confirm your password")
        | some c =>
          if c = "" then some (validationError "please confirm your password")
          else if c ≠ p then some (validationError "passwords are not the same")
          else none

/-- Modelled from the spec: the pre-save hook of the user model at the
controller revision is absent from the snapshot schema file.  Per spec
sections 3 and 4.1 a saved plaintext password is persisted only as its
bcrypt hash and the transient passwordConfirm is discarded. -/
def hashOnSave (u : Identity) : Identity :=
  { u with password := u.password.map bcryptHash, passwordConfirm := none }

/-- The document User.create builds from the fields signup forwards
(authController lines 41-48): the email is case-folded by the schema and
the role falls back to the schema default "user" when the body carries
none (spec section 3). -/
def newUserDoc (b : SignupBody) (newId : Nat) : Identity :=
  { id := newId
    name := b.name
    email := lowercase b.email
    photo := none
    password := some b.password
    passwordConfirm := some b.passwordConfirm
    passwordChangedAt := b.passwordChangedAt
    role := b.role.getD "user"
    passwordResetToken := none
    passwordResetExpires := none }

/-- User.create (called by signup): builds the document from the forwarded
fields, enforces the unique-email index and the schema validators, and
persists the document with the password hashed by the save hook. -/
def createUser (store : List Identity) (b : SignupBody) (newId : Nat) :
    Except AppError (List Identity × Identity) :=
  if (findOneByEmail store (newUserDoc b newId).email).isSome then
    Except.error (validationError "Duplicate field value: email")
  else
    match validateDoc (newUserDoc b newId) with
    | some e => Except.error e
    | none =>
      Except.ok (store ++ [hashOnSave (newUserDoc b newId)], hashOnSave (newUserDoc b newId))

/-- signup (authController lines 40-50): User.create on the forwarded body
fields, then createAndSendToken with status 201. -/
def signup (secret : String) (now : Nat) (store : List Identity)
    (b : SignupBody) (newId : Nat) :
    List Identity × Except AppError Response :=
  match createUser store b newId with
  | Except.error e => (store, Except.error e)
  | Except.ok (store', newUser) =>
    (store', Except.ok (createAndSendToken secret now newUser 201))

/-- Modelled from the spec: userSchema.methods.correctPassword is called by
login and updatePassword but absent from the snapshot schema file; per spec
section 2 it is the bcrypt comparison of the candidate password against the
stored hash. -/
def correctPassword (candidate : String) (stored : Option String) : Bool :=
  stored == some (bcryptHash candidate)

/-- login (authController lines 53-69): 400 when email or password is
missing (falsy); otherwise findOne by email and compare the password
against the stored hash, answering the one deliberately identical
AuthError message on either failure; on success createAndSendToken 200. -/
def login (secret : String) (now : Nat) (store : List Identity)
    (email password : String) : Except AppError Response :=
  if email = "" ∨ password = "" then
    Except.error { message := "Please provide email and password!", statusCode := some 400 }
  else
    match findOneByEmail store email with
    | none =>
      Except.error { message := "Incorrect email or password!", statusCode := some 401 }
    | some user =>
      if !(correctPassword password user.password) then
        Except.error { message := "Incorrect email or password!", statusCode := some 401 }
      else Except.ok (createAndSendToken secret now user 200)

/-- Modelled from the spec: userSchema.methods.passwordChangedAfter is
called by protect but absent from the snapshot schema file; per spec
section 4.1 it holds iff passwordChangedAt is set and is later than the
token issued-at stamp. -/
def passwordChangedAfter (u : Identity) (iat : Nat) : Bool :=
  match u.passwordChangedAt with
  | some changedAt => iat < changedAt
  | none => false

/-- protect (authController lines 72-114): the request carries an optional
bearer token (the Authorization-header split is HTTP plumbing); missing
token, failed signature verification, a vanished user, and a password
change after the token issue time each forward an error; otherwise the
current user is granted access.  The jwt.verify throw carries no status
code of its own. -/
def protect (secret : String) (store : List Identity) (authToken : Option Token) :
    Except AppError Identity :=
  match authToken with
  | none =>
    Except.error { message := "You are not logged in!, please login to get access.", statusCode := some 401 }
  | some token =>
    match jwtVerify secret token with
    | none => Except.error { message := "JsonWebTokenError", statusCode := none }
    | some decoded =>
      match findById store decoded.id with
      | none =>
        Except.error { message := "The user belonging to this token does no longer exsist.", statusCode := some 401 }
      | some currentUser =>
        if passwordChangedAfter currentUser decoded.iat then
          Except.error { message := "The user recently changed their password! Please login again.", statusCode := some 401 }
        else Except.ok currentUser

/-- Modelled from the spec: userSchema.methods.createPasswordResetToken is
called by forgotPassword but absent from the snapshot schema file; per spec
sections 3 and 4.3 it draws a random plaintext token (passed in here to
model the external randomness), stores only its sha256 hash together with a
ten-minute expiry on the identity, and returns the plaintext. -/
def createPasswordResetToken (resetToken : String) (now : Nat) (u : Identity) :
    String × Identity :=
  (resetToken,
   { u with
      passwordResetToken := some (sha256Hex resetToken)
      passwordResetExpires := some (now + 10 * 60 * 1000) })

/-- forgotPassword (authController lines 129-168).  The unknown-email
branch constructs its AppError without a status code: the source passes
404 as a second argument to next, which Express ignores, so the modelled
error carries statusCode none.  On a known email the reset fields are set
and saved (validation bypassed), then delivery is attempted; on delivery
failure both reset fields are rolled back to empty and saved before the
error is forwarded, the 500 again passed as the ignored second argument
to next. -/
def forgotPassword (store : List Identity) (email : String)
    (resetToken : String) (now : Nat) (deliveryOk : Bool) :
    List Identity × Except AppError String :=
  match findOneByEmail store email with
  | none =>
    (store, Except.error { message := "There is no user with that email", statusCode := none })
  | some user =>
    let pending := (createPasswordResetToken resetToken now user).2
    let store := saveDoc store pending
    if deliveryOk then
      (store, Except.ok "Token sent to email!")
    else
      let rolledBack :=
        { pending with passwordResetToken := none, passwordResetExpires := none }
      (saveDoc store rolledBack,
       Except.error { message := "There was an error sending the email. Try again later ", statusCode := none })

/-- The findOne filter of resetPassword: stored reset-token hash equal to
the presented hash and expiry strictly greater than Date.now(). -/
def findOneByResetToken (store : List Identity) (hashedToken : String) (now : Nat) :
    Option Identity :=
  store.find? (fun u =>
    u.passwordResetToken == some hashedToken &&
      (match u.passwordResetExpires with
       | some expires => now < expires
       | none => false))

/-- user.save() with validators, as performed by resetPassword and
updatePassword after assigning the new plaintext password: the schema
validators run on the document, then the save hook hashes the password and
discards passwordConfirm; the hook at the controller revision also stamps
passwordChangedAt on a password change to an existing document
(modelled from the spec, section 3 lifecycle). -/
def saveWithValidation (store : List Identity) (u : Identity) (now : Nat) :
    Except AppError (List Identity × Identity) :=
  match validateDoc u with
  | some e => Except.error e
  | none =>
    Except.ok (saveDoc store { hashOnSave u with passwordChangedAt := some now },
      { hashOnSave u with passwordChangedAt := some now })

/-- resetPassword (authController lines 170-195): hashes the presented
token, looks up a user whose stored hash matches with an unexpired window;
the failure branch constructs its AppError without a status code (the 400
is the ignored second argument to next).  On a match the new password and
confirm are assigned, both reset fields are cleared, the document is saved
with validation, and a fresh session token is issued with status 200. -/
def resetPassword (secret : String) (store : List Identity)
    (tokenParam password passwordConfirm : String) (now : Nat) :
    List Identity × Except AppError Response :=
  match findOneByResetToken store (sha256Hex tokenParam) now with
  | none =>
    (store, Except.error { message := "token is invalid or has expired", statusCode := none })
  | some user =>
    match saveWithValidation store
        { user with
            password := some password
            passwordConfirm := some passwordConfirm
            passwordResetToken := none
            passwordResetExpires := none } now with
    | Except.error e => (store, Except.error e)
    | Except.ok (store', saved) =>
      (store', Except.ok (createAndSendToken secret now saved 200))

/-- updatePassword (authController lines 197-211): re-fetches the
authenticated user, re-authenticates via the current password (the 401 of
the failure branch is the ignored second argument to next, so the error
carries no status code), assigns and saves the new password with
validation, and issues a fresh session with status 200.  The source does
not null-check the fetched user; a missing record crashes the handler
(modelled as a raw error without a status code). -/
def updatePassword (secret : String) (store : List Identity) (userId : Nat)
    (passwordCurrent password passwordConfirm : String) (now : Nat) :
    List Identity × Except AppError Response :=
  match findById store userId with
  | none =>
    (store, Except.error { message := "TypeError: user is null", statusCode := none })
  | some user =>
    if !(correctPassword passwordCurrent user.password) then
      (store, Except.error { message := "Your current password is wrong", statusCode := none })
    else
      match saveWithValidation store
          { user with password := some password, passwordConfirm := some passwordConfirm } now with
      | Except.error e => (store, Except.error e)
      | Except.ok (store', saved) =>
        (store', Except.ok (createAndSendToken secret now saved 200))

/-! Helper lemmas about the store primitives. -/

theorem findOneByEmail_mem {store : List Identity} {email : String} {u : Identity}
    (h : findOneByEmail store email = some u) : u ∈ store ∧ u.email = email := by
  unfold findOneByEmail at h
  have hp := List.find?_some h
  simp only [beq_iff_eq] at hp
  exact ⟨List.mem_of_find?_eq_some h, hp⟩

theorem findById_mem {store : List Identity} {i : Nat} {u : Identity}
    (h : findById store i = some u) : u ∈ store ∧ u.id = i := by
  unfold findById at h
  have hp := List.find?_some h
  simp only [beq_iff_eq] at hp
  exact ⟨List.mem_of_find?_eq_some h, hp⟩

theorem findOneByEmail_isSome {store : List Identity} {email : String} {u : Identity}
    (hmem : u ∈ store) (hemail : u.email = email) :
    (findOneByEmail store email).isSome := by
  rw [findOneByEmail, List.find?_isSome]
  exact ⟨u, hmem, beq_iff_eq.mpr hemail⟩

theorem findById_saveDoc {store : List Identity} {w : Identity} {i : Nat}
    (hw : w.id = i) (hex : ∃ v ∈ store, v.id = i) :
    findById (saveDoc store w) i = some w := by
  have hpred :
      ((fun u : Identity => u.id == i) ∘ fun v : Identity => if v.id == w.id then w else v) =
        fun v : Identity => v.id == i := by
    funext v
    by_cases hv : v.id = w.id
    · simp [Function.comp, hv, hw]
    · simp [Function.comp, beq_eq_false_iff_ne.mpr hv]
  unfold findById saveDoc
  rw [List.find?_map, hpred]
  obtain ⟨v, hvmem, hvi⟩ := hex
  have hsome : (store.find? fun v : Identity => v.id == i).isSome := by
    rw [List.find?_isSome]
    exact ⟨v, hvmem, beq_iff_eq.mpr hvi⟩
  obtain ⟨v0, hv0⟩ := Option.isSome_iff_exists.mp hsome
  have hv0i : v0.id = i := by
    have hp := List.find?_some hv0
    simpa using hp
  rw [hv0, Option.map_some']
  have : (v0.id == w.id) = true := beq_iff_eq.mpr (by rw [hv0i, hw])
  simp [this]

theorem jwtVerify_signToken (secret : String) (id iat : Nat) :
    jwtVerify secret (signToken secret id iat) = some { id := id, iat := iat } := by
  simp [jwtVerify, signToken]

theorem bcryptHash_ne (s : String) : bcryptHash s ≠ s := by
  intro h
  have hl := congrArg String.length h
  rw [bcryptHash, String.length_append] at hl
  have h7 : ("bcrypt:" : String).length = 7 := rfl
  rw [h7] at hl
  omega

/-- Every error produced by the schema validators is a ValidationError
carrying status 400. -/
theorem validateDoc_eq_some {u : Identity} {e : AppError}
    (h : validateDoc u = some e) : e.statusCode = some 400 := by
  unfold validateDoc at h
  repeat' split at h
  all_goals first
    | exact Option.noConfusion h
    | (obtain rfl : _ = e := Option.some.inj h; rfl)

/-- Passing schema validation forces every validated field constraint. -/
theorem validateDoc_eq_none {u : Identity} (h : validateDoc u = none) :
    u.name ≠ "" ∧ u.email ≠ "" ∧ isEmail u.email = true ∧
      ∃ p, u.password = some p ∧ p ≠ "" ∧ 8 ≤ p.length ∧ u.passwordConfirm = some p := by
  unfold validateDoc at h
  repeat' split at h
  all_goals try exact Option.noConfusion h
  simp_all

theorem exists_id_in_saveDoc {store : List Identity} {u w : Identity}
    (hmem : u ∈ store) (hw : w.id = u.id) :
    ∃ v ∈ saveDoc store w, v.id = u.id := by
  refine ⟨w, ?_, hw⟩
  unfold saveDoc
  have hm := List.mem_map_of_mem (fun v : Identity => if v.id == w.id then w else v) hmem
  simpa [hw] using hm

/-- A concrete stored identity used by the concrete witnesses: the record
the spec scenario signup("Amy","amy@x.com","password1","password1")
persists. -/
def amy : Identity :=
  { id := 1
    name := "Amy"
    email := "amy@x.com"
    photo := none
    password := some (bcryptHash "password1")
    passwordConfirm := none
    passwordChangedAt := none
    role := "user"
    passwordResetToken := none
    passwordResetExpires := none }

/-- C3: every login attempt whose email and password are present but match
no stored identity — unknown email and failed hash comparison alike — fails
with the identical AuthError 401 message, so the response does not reveal
whether the email exists. -/
theorem login_enumeration_resistance (secret : String) (now : Nat)
    (store : List Identity) (email password : String)
    (hemail : email ≠ "") (hpassword : password ≠ "")
    (hnomatch : ∀ u ∈ store, u.email = email → correctPassword password u.password = false) :
    login secret now store email password =
      Except.error { message := "Incorrect email or password!", statusCode := some 401 } := by
  unfold login
  rw [if_neg (by push_neg; exact ⟨hemail, hpassword⟩)]
  cases hfind : findOneByEmail store email with
  | none => rfl
  | some u =>
    obtain ⟨hmem, hmail⟩ := findOneByEmail_mem hfind
    have hc := hnomatch u hmem hmail
    simp [hc]

/-- Witness for C3: the same identical error for an unknown email over the
empty store and for a wrong password against the stored Amy record. -/
theorem login_enumeration_resistance_witness :
    login "secret" 0 [] "amy@x.com" "password1" =
        Except.error { message := "Incorrect email or password!", statusCode := some 401 } ∧
      login "secret" 0 [amy] "amy@x.com" "password2" =
        Except.error { message := "Incorrect email or password!", statusCode := some 401 } :=
  ⟨login_enumeration_resistance "secret" 0 [] "amy@x.com" "password1"
      (by decide) (by decide) (by intro u hu; cases hu),
   login_enumeration_resistance "secret" 0 [amy] "amy@x.com" "password2"
      (by decide) (by decide)
      (by
        intro u hu hmail
        simp only [List.mem_singleton] at hu
        subst hu
        decide)⟩

/-- C2: the unknown-email branch of forgotPassword and the
invalid-or-expired branch of resetPassword construct their AppError
without a status code — the source passes 404 and 400 as the ignored
second argument to next — so both error paths surface with the default
500 status. -/
theorem dropped_status_codes_default_to_500 :
    (∀ (store : List Identity) (email resetToken : String) (now : Nat) (deliveryOk : Bool),
       findOneByEmail store email = none →
       (forgotPassword store email resetToken now deliveryOk).2 =
           Except.error { message := "There is no user with that email", statusCode := none } ∧
         surfacedStatus { message := "There is no user with that email", statusCode := none } = 500) ∧
    (∀ (secret : String) (store : List Identity)
       (tokenParam password passwordConfirm : String) (now : Nat),
       findOneByResetToken store (sha256Hex tokenParam) now = none →
       (resetPassword secret store tokenParam password passwordConfirm now).2 =
           Except.error { message := "token is invalid or has expired", statusCode := none } ∧
         surfacedStatus { message := "token is invalid or has expired", statusCode := none } = 500) := by
  constructor
  · intro store email resetToken now deliveryOk hfind
    unfold forgotPassword
    rw [hfind]
    exact ⟨rfl, rfl⟩
  · intro secret store tokenParam password passwordConfirm now hfind
    unfold resetPassword
    rw [hfind]
    exact ⟨rfl, rfl⟩

/-- Witness for C2: both dropped-status error paths at concrete inputs over
the empty store. -/
theorem dropped_status_codes_default_to_500_witness :
    (forgotPassword [] "amy@x.com" "tok" 0 true).2 =
        Except.error { message := "There is no user with that email", statusCode := none } ∧
      (resetPassword "secret" [] "tok" "newpassword" "newpassword" 0).2 =
        Except.error { message := "token is invalid or has expired", statusCode := none } :=
  ⟨(dropped_status_codes_default_to_500.1 [] "amy@x.com" "tok" 0 true rfl).1,
   (dropped_status_codes_default_to_500.2 "secret" [] "tok" "newpassword" "newpassword" 0 rfl).1⟩

/-- C5: when delivery of the reset email fails, forgotPassword rolls both
reset fields back to empty and saves that rollback before the delivery
error is surfaced; the error carries no status code of its own and
surfaces as 500. -/
theorem forgotPassword_rollback_on_failed_send
    (store : List Identity) (email resetToken : String) (now : Nat) (u : Identity)
    (hfind : findOneByEmail store email = some u) :
    (forgotPassword store email resetToken now false).2 =
        Except.error { message := "There was an error sending the email. Try again later ", statusCode := none } ∧
      surfacedStatus { message := "There was an error sending the email. Try again later ", statusCode := none } = 500 ∧
      ∃ v, findById (forgotPassword store email resetToken now false).1 u.id = some v ∧
        v.passwordResetToken = none ∧ v.passwordResetExpires = none := by
  obtain ⟨hmem, -⟩ := findOneByEmail_mem hfind
  have hres : forgotPassword store email resetToken now false =
      (saveDoc
        (saveDoc store
          { u with
              passwordResetToken := some (sha256Hex resetToken)
              passwordResetExpires := some (now + 10 * 60 * 1000) })
        { u with passwordResetToken := none, passwordResetExpires := none },
       Except.error { message := "There was an error sending the email. Try again later ", statusCode := none }) := by
    unfold forgotPassword
    rw [hfind]
    rfl
  rw [hres]
  exact ⟨rfl, rfl,
    ⟨{ u with passwordResetToken := none, passwordResetExpires := none },
     findById_saveDoc rfl (exists_id_in_saveDoc hmem rfl), rfl, rfl⟩⟩

/-- Witness for C5: a failed send against the stored Amy record clears the
reset fields again. -/
theorem forgotPassword_rollback_on_failed_send_witness :
    (forgotPassword [amy] "amy@x.com" "tok" 0 false).2 =
        Except.error { message := "There was an error sending the email. Try again later ", statusCode := none } ∧
      surfacedStatus { message := "There was an error sending the email. Try again later ", statusCode := none } = 500 ∧
      ∃ v, findById (forgotPassword [amy] "amy@x.com" "tok" 0 false).1 amy.id = some v ∧
        v.passwordResetToken = none ∧ v.passwordResetExpires = none :=
  forgotPassword_rollback_on_failed_send [amy] "amy@x.com" "tok" 0 amy (by decide)

/-- Decomposition of a successful User.create: the store is extended with
the persisted document, whose shape is fully determined by the body. -/
theorem createUser_ok {store : List Identity} {b : SignupBody} {newId : Nat}
    {store' : List Identity} {saved : Identity}
    (h : createUser store b newId = Except.ok (store', saved)) :
    store' = store ++ [saved] ∧
      saved =
        { id := newId
          name := b.name
          email := lowercase b.email
          photo := none
          password := some (bcryptHash b.password)
          passwordConfirm := none
          passwordChangedAt := b.passwordChangedAt
          role := b.role.getD "user"
          passwordResetToken := none
          passwordResetExpires := none } := by
  unfold createUser at h
  repeat' split at h
  · exact Except.noConfusion h
  · exact Except.noConfusion h
  · have h' := Except.ok.inj h
    rw [Prod.mk.injEq] at h'
    obtain ⟨h1, h2⟩ := h'
    subst h2
    exact ⟨h1.symm, rfl⟩

/-- The request body of the spec scenario
signup("Amy","amy@x.com","password1","password1"). -/
def bodyAmy : SignupBody :=
  { name := "Amy"
    email := "amy@x.com"
    password := "password1"
    passwordConfirm := "password1"
    passwordChangedAt := none
    role := none }

/-- A signup body that smuggles in a caller-chosen role and
passwordChangedAt. -/
def bodyRoot : SignupBody :=
  { name := "Root"
    email := "root@x.com"
    password := "password1"
    passwordConfirm := "password1"
    passwordChangedAt := some 42
    role := some "admin" }

/-- The identity the bodyRoot signup persists. -/
def rootStored : Identity :=
  { id := 2
    name := "Root"
    email := "root@x.com"
    photo := none
    password := some (bcryptHash "password1")
    passwordConfirm := none
    passwordChangedAt := some 42
    role := "admin"
    passwordResetToken := none
    passwordResetExpires := none }

/-- C6: a successful signup persists the new identity with the one-way
bcrypt hash of the submitted password — never the plaintext — and issues a
session token for the new identity with the 201 response. -/
theorem signup_persists_hash_and_issues_token
    (secret : String) (now : Nat) (store : List Identity) (b : SignupBody)
    (newId : Nat) (store' : List Identity) (r : Response)
    (h : signup secret now store b newId = (store', Except.ok r)) :
    ∃ saved : Identity,
      store' = store ++ [saved] ∧
      saved.password = some (bcryptHash b.password) ∧
      saved.password ≠ some b.password ∧
      r.token = signToken secret saved.id now ∧
      r.statusCode = 201 := by
  unfold signup at h
  cases hc : createUser store b newId with
  | error e =>
    rw [hc] at h
    simp at h
  | ok p =>
    obtain ⟨store₀, newUser⟩ := p
    rw [hc] at h
    simp only [Prod.mk.injEq] at h
    obtain ⟨hs, hr⟩ := h
    injection hr with hr
    obtain ⟨hs', hsaved⟩ := createUser_ok hc
    subst hsaved
    exact ⟨_, by rw [← hs, hs'], rfl,
      fun heq => bcryptHash_ne b.password (Option.some.inj heq),
      by rw [← hr]; rfl, by rw [← hr]; rfl⟩

/-- Witness for C6: the spec signup scenario over the empty store persists
Amy with the hashed password and answers 201 with a token. -/
theorem signup_persists_hash_and_issues_token_witness :
    ∃ saved : Identity,
      [amy] = [] ++ [saved] ∧
      saved.password = some (bcryptHash bodyAmy.password) ∧
      saved.password ≠ some bodyAmy.password ∧
      (createAndSendToken "secret" 0 amy 201).token = signToken "secret" saved.id 0 ∧
      (createAndSendToken "secret" 0 amy 201).statusCode = 201 :=
  signup_persists_hash_and_issues_token "secret" 0 [] bodyAmy 1 [amy]
    (createAndSendToken "secret" 0 amy 201) rfl

/-- C10: signup forwards role and passwordChangedAt to User.create straight
from the request body, so the persisted identity carries the body values —
the schema default "user" applies to role only when the body carries none,
and role is not forced server-side. -/
theorem signup_role_and_changedAt_caller_controlled
    (secret : String) (now : Nat) (store : List Identity) (b : SignupBody)
    (newId : Nat) (store' : List Identity) (r : Response)
    (h : signup secret now store b newId = (store', Except.ok r)) :
    ∃ saved : Identity,
      store' = store ++ [saved] ∧
      saved.role = b.role.getD "user" ∧
      saved.passwordChangedAt = b.passwordChangedAt := by
  unfold signup at h
  cases hc : createUser store b newId with
  | error e =>
    rw [hc] at h
    simp at h
  | ok p =>
    obtain ⟨store₀, newUser⟩ := p
    rw [hc] at h
    simp only [Prod.mk.injEq] at h
    obtain ⟨hs, hr⟩ := h
    obtain ⟨hs', hsaved⟩ := createUser_ok hc
    subst hsaved
    exact ⟨_, by rw [← hs, hs'], rfl, rfl⟩

/-- Witness for C10: a signup body carrying role "admin" and a concrete
passwordChangedAt is persisted verbatim. -/
theorem signup_role_and_changedAt_caller_controlled_witness :
    ∃ saved : Identity,
      [rootStored] = [] ++ [saved] ∧
      saved.role = bodyRoot.role.getD "user" ∧
      saved.passwordChangedAt = bodyRoot.passwordChangedAt :=
  signup_role_and_changedAt_caller_controlled "secret" 0 [] bodyRoot 2 [rootStored]
    (createAndSendToken "secret" 0 rootStored 201) rfl

/-- C9: feeding the token issueSession produces for an identity into the
authenticate middleware yields the stored identity with the same id,
provided the identity still exists in the store and no password change
postdates the issue time. -/
theorem session_round_trip (secret : String) (now : Nat) (store : List Identity)
    (u v : Identity) (statusCode : Nat)
    (hfind : findById store u.id = some v)
    (hnochange : passwordChangedAfter v now = false) :
    protect secret store (some (createAndSendToken secret now u statusCode).token) =
        Except.ok v ∧
      v.id = u.id := by
  have htok : (createAndSendToken secret now u statusCode).token = signToken secret u.id now := rfl
  rw [htok]
  constructor
  · simp [protect, jwtVerify_signToken, hfind, hnochange]
  · exact (findById_mem hfind).2

/-- Witness for C9: the round trip for the stored Amy record. -/
theorem session_round_trip_witness :
    protect "secret" [amy] (some (createAndSendToken "secret" 5 amy 200).token) =
        Except.ok amy ∧
      amy.id = amy.id :=
  session_round_trip "secret" 5 [amy] amy amy 200 (by decide) rfl

/-- Decomposition of a successful validated save: the saved document is
the hashed-and-stamped input and the store is updated with it. -/
theorem saveWithValidation_ok {store : List Identity} {u : Identity} {now : Nat}
    {store' : List Identity} {saved : Identity}
    (h : saveWithValidation store u now = Except.ok (store', saved)) :
    saved = { hashOnSave u with passwordChangedAt := some now } ∧
      store' = saveDoc store saved := by
  unfold saveWithValidation at h
  split at h
  · exact Except.noConfusion h
  · have h' := Except.ok.inj h
    rw [Prod.mk.injEq] at h'
    obtain ⟨h1, h2⟩ := h'
    subst h2
    exact ⟨rfl, h1.symm⟩

/-- Decomposition of a successful updatePassword: the authenticated user
was found, and the store now holds a saved document for that id whose
passwordChangedAt is the save time. -/
theorem updatePassword_ok_changedAt {secret : String} {store : List Identity}
    {userId : Nat} {passwordCurrent password passwordConfirm : String} {T : Nat}
    {store' : List Identity} {r : Response}
    (h : updatePassword secret store userId passwordCurrent password passwordConfirm T =
      (store', Except.ok r)) :
    ∃ saved : Identity, findById store' userId = some saved ∧
      saved.passwordChangedAt = some T := by
  unfold updatePassword at h
  cases hfind : findById store userId with
  | none =>
    rw [hfind] at h
    simp at h
  | some u =>
    rw [hfind] at h
    split at h
    · simp at h
    · rename_i user heq
      injection heq with hequ
      obtain rfl := hequ
      split at h
      · simp at h
      · cases hsv : saveWithValidation store
            { u with password := some password, passwordConfirm := some passwordConfirm } T with
        | error e =>
          rw [hsv] at h
          simp at h
        | ok p =>
          obtain ⟨store₀, saved₀⟩ := p
          rw [hsv] at h
          simp only [Prod.mk.injEq] at h
          obtain ⟨hs, -⟩ := h
          obtain ⟨hsaved, hstore⟩ := saveWithValidation_ok hsv
          obtain ⟨hmem, hid⟩ := findById_mem hfind
          subst hsaved
          exact ⟨_, by rw [← hs, hstore]; exact findById_saveDoc hid ⟨u, hmem, hid⟩, rfl⟩

/-- C1: the session-invalidation contract: authenticate rejects a
well-signed token whose referenced identity changed its password strictly
after the token was issued; and after a successful updatePassword at time
T the stored passwordChangedAt equals T, so a token issued strictly before
T is rejected with that AuthError while a token issued at or after T is
accepted (no later change intervening). -/
theorem password_change_invalidates_stale_tokens :
    (∀ (secret : String) (store : List Identity) (t : Token) (u : Identity) (changedAt : Nat),
       t.sig = tokenSig secret t.id t.iat →
       findById store t.id = some u →
       u.passwordChangedAt = some changedAt →
       t.iat < changedAt →
       protect secret store (some t) =
         Except.error { message := "The user recently changed their password! Please login again.", statusCode := some 401 }) ∧
    (∀ (secret : String) (store store' : List Identity) (userId : Nat)
       (passwordCurrent password passwordConfirm : String) (T : Nat) (r : Response),
       updatePassword secret store userId passwordCurrent password passwordConfirm T =
         (store', Except.ok r) →
       ∀ iat : Nat,
         (iat < T →
           protect secret store' (some (signToken secret userId iat)) =
             Except.error { message := "The user recently changed their password! Please login again.", statusCode := some 401 }) ∧
         (T ≤ iat →
           ∃ v, protect secret store' (some (signToken secret userId iat)) = Except.ok v ∧
             v.passwordChangedAt = some T)) := by
  constructor
  · intro secret store t u changedAt hsig hfind hchanged hstale
    have hver : jwtVerify secret t = some { id := t.id, iat := t.iat } := by
      simp [jwtVerify, hsig]
    have hafter : passwordChangedAfter u t.iat = true := by
      simp [passwordChangedAfter, hchanged, hstale]
    simp [protect, hver, hfind, hafter]
  · intro secret store store' userId passwordCurrent password passwordConfirm T r h iat
    obtain ⟨saved, hfind', hchanged⟩ := updatePassword_ok_changedAt h
    constructor
    · intro hlt
      have hafter : passwordChangedAfter saved iat = true := by
        simp [passwordChangedAfter, hchanged, hlt]
      simp [protect, jwtVerify_signToken, hfind', hafter]
    · intro hge
      have hafter : passwordChangedAfter saved iat = false := by
        simp only [passwordChangedAfter, hchanged, decide_eq_false_iff_not]
        omega
      refine ⟨saved, ?_, hchanged⟩
      simp [protect, jwtVerify_signToken, hfind', hafter]

/-- The stored Amy record after a password change at time 100. -/
def amyChanged : Identity := { amy with passwordChangedAt := some 100 }

/-- The document updatePassword at time 200 with new password
"newpassword" saves for Amy. -/
def amySaved : Identity :=
  { amy with password := some (bcryptHash "newpassword"), passwordChangedAt := some 200 }

/-- Witness for C1: a token issued at 50 is rejected after a change at
100, and after updatePassword at 200 a token issued at 200 is accepted. -/
theorem password_change_invalidates_stale_tokens_witness :
    protect "secret" [amyChanged] (some (signToken "secret" 1 50)) =
        Except.error { message := "The user recently changed their password! Please login again.", statusCode := some 401 } ∧
      ∃ v, protect "secret" [amySaved] (some (signToken "secret" 1 200)) = Except.ok v ∧
        v.passwordChangedAt = some 200 := by
  constructor
  · exact password_change_invalidates_stale_tokens.1 "secret" [amyChanged]
      (signToken "secret" 1 50) amyChanged 100 rfl (by decide) rfl (by decide)
  · exact (password_change_invalidates_stale_tokens.2 "secret" [amy] [amySaved] 1
      "password1" "newpassword" "newpassword" 200
      (createAndSendToken "secret" 200 amySaved 200) rfl 200).2 (by omega)

/-- C4: resetPassword hashes the presented token and succeeds only for an
identity whose stored reset-token hash equals that hash and whose reset
expiry lies strictly in the future, failing with the invalid-or-expired
error otherwise; on success it persists the new password hashed, clears
both reset fields, and issues a fresh session token with status 200. -/
theorem resetPassword_consumes_reset_state :
    (∀ (secret : String) (store : List Identity)
       (tokenParam password passwordConfirm : String) (now : Nat),
       findOneByResetToken store (sha256Hex tokenParam) now = none →
       resetPassword secret store tokenParam password passwordConfirm now =
         (store, Except.error { message := "token is invalid or has expired", statusCode := none })) ∧
    (∀ (store : List Identity) (hashedToken : String) (now : Nat) (u : Identity),
       findOneByResetToken store hashedToken now = some u →
       u.passwordResetToken = some hashedToken ∧
         ∃ expiry, u.passwordResetExpires = some expiry ∧ now < expiry) ∧
    (∀ (secret : String) (store : List Identity) (tokenParam password : String)
       (now : Nat) (u : Identity),
       findOneByResetToken store (sha256Hex tokenParam) now = some u →
       u.name ≠ "" → u.email ≠ "" → isEmail u.email = true →
       password ≠ "" → 8 ≤ password.length →
       ∃ saved : Identity,
         resetPassword secret store tokenParam password password now =
           (saveDoc store saved, Except.ok (createAndSendToken secret now saved 200)) ∧
         saved.id = u.id ∧
         saved.password = some (bcryptHash password) ∧
         saved.passwordResetToken = none ∧
         saved.passwordResetExpires = none) := by
  refine ⟨?_, ?_, ?_⟩
  · intro secret store tokenParam password passwordConfirm now hfind
    unfold resetPassword
    rw [hfind]
  · intro store hashedToken now u hfind
    unfold findOneByResetToken at hfind
    have hp := List.find?_some hfind
    simp only [Bool.and_eq_true, beq_iff_eq] at hp
    obtain ⟨h1, h2⟩ := hp
    refine ⟨h1, ?_⟩
    cases hex : u.passwordResetExpires with
    | none =>
      rw [hex] at h2
      simp at h2
    | some expiry =>
      rw [hex] at h2
      simp at h2
      exact ⟨expiry, rfl, h2⟩
  · intro secret store tokenParam password now u hfind hname hemail hmail hpne hplen
    have hlen' : ¬ password.length < 8 := by omega
    have hval : validateDoc
        { u with
            password := some password
            passwordConfirm := some password
            passwordResetToken := none
            passwordResetExpires := none } = none := by
      simp [validateDoc, hname, hemail, hmail, hpne, hlen']
    refine ⟨{ u with
        password := some (bcryptHash password)
        passwordConfirm := none
        passwordChangedAt := some now
        passwordResetToken := none
        passwordResetExpires := none }, ?_, rfl, rfl, rfl, rfl⟩
    unfold resetPassword saveWithValidation
    rw [hfind]
    simp only [hval]
    rfl

/-- The stored Amy record with a pending reset for token "tok" expiring at
time 1000. -/
def amyPending : Identity :=
  { amy with
      passwordResetToken := some (sha256Hex "tok")
      passwordResetExpires := some 1000 }

/-- Witness for C4: over the empty store the reset fails with the
invalid-or-expired error; a matching unexpired pending reset is consumed,
re-hashing the password and clearing both reset fields. -/
theorem resetPassword_consumes_reset_state_witness :
    resetPassword "secret" [] "tok" "newpassword" "newpassword" 7 =
        ([], Except.error { message := "token is invalid or has expired", statusCode := none }) ∧
      (amyPending.passwordResetToken = some (sha256Hex "tok") ∧
        ∃ expiry, amyPending.passwordResetExpires = some expiry ∧ 500 < expiry) ∧
      ∃ saved : Identity,
        resetPassword "secret" [amyPending] "tok" "newpassword" "newpassword" 500 =
          (saveDoc [amyPending] saved, Except.ok (createAndSendToken "secret" 500 saved 200)) ∧
        saved.id = amyPending.id ∧
        saved.password = some (bcryptHash "newpassword") ∧
        saved.passwordResetToken = none ∧
        saved.passwordResetExpires = none :=
  ⟨resetPassword_consumes_reset_state.1 "secret" [] "tok" "newpassword" "newpassword" 7 rfl,
   resetPassword_consumes_reset_state.2.1 [amyPending] (sha256Hex "tok") 500 amyPending
     (by decide),
   resetPassword_consumes_reset_state.2.2 "secret" [amyPending] "tok" "newpassword" 500
     amyPending (by decide) (by decide) (by decide) (by decide) (by decide) (by decide)⟩

/-- C7: every success envelope of signup, login, resetPassword and
updatePassword goes through createAndSendToken, which strips the password
field from the serialized user object. -/
theorem responses_never_serialize_password :
    (∀ (secret : String) (now : Nat) (store : List Identity) (b : SignupBody)
       (newId : Nat) (r : Response),
       (signup secret now store b newId).2 = Except.ok r → r.user.password = none) ∧
    (∀ (secret : String) (now : Nat) (store : List Identity) (email password : String)
       (r : Response),
       login secret now store email password = Except.ok r → r.user.password = none) ∧
    (∀ (secret : String) (store : List Identity)
       (tokenParam password passwordConfirm : String) (now : Nat) (r : Response),
       (resetPassword secret store tokenParam password passwordConfirm now).2 = Except.ok r →
       r.user.password = none) ∧
    (∀ (secret : String) (store : List Identity) (userId : Nat)
       (passwordCurrent password passwordConfirm : String) (now : Nat) (r : Response),
       (updatePassword secret store userId passwordCurrent password passwordConfirm now).2 =
         Except.ok r →
       r.user.password = none) := by
  refine ⟨?_, ?_, ?_, ?_⟩
  · intro secret now store b newId r h
    unfold signup at h
    repeat' split at h
    all_goals first
      | exact Except.noConfusion h
      | (obtain rfl := Except.ok.inj h; rfl)
  · intro secret now store email password r h
    unfold login at h
    repeat' split at h
    all_goals first
      | exact Except.noConfusion h
      | (obtain rfl := Except.ok.inj h; rfl)
  · intro secret store tokenParam password passwordConfirm now r h
    unfold resetPassword at h
    repeat' split at h
    all_goals first
      | exact Except.noConfusion h
      | (obtain rfl := Except.ok.inj h; rfl)
  · intro secret store userId passwordCurrent password passwordConfirm now r h
    unfold updatePassword at h
    repeat' split at h
    all_goals first
      | exact Except.noConfusion h
      | (obtain rfl := Except.ok.inj h; rfl)

/-- The document the witness resetPassword run saves for Amy. -/
def amyReset : Identity :=
  { amy with password := some (bcryptHash "newpassword"), passwordChangedAt := some 500 }

/-- Witness for C7: concrete successful runs of all four operations serve a
user object whose password field is stripped. -/
theorem responses_never_serialize_password_witness :
    (createAndSendToken "secret" 0 amy 201).user.password = none ∧
      (createAndSendToken "secret" 0 amy 200).user.password = none ∧
      (createAndSendToken "secret" 500 amyReset 200).user.password = none ∧
      (createAndSendToken "secret" 200 amySaved 200).user.password = none :=
  ⟨responses_never_serialize_password.1 "secret" 0 [] bodyAmy 1
      (createAndSendToken "secret" 0 amy 201) rfl,
   responses_never_serialize_password.2.1 "secret" 0 [amy] "amy@x.com" "password1"
      (createAndSendToken "secret" 0 amy 200) rfl,
   responses_never_serialize_password.2.2.1 "secret" [amyPending] "tok" "newpassword"
      "newpassword" 500 (createAndSendToken "secret" 500 amyReset 200) rfl,
   responses_never_serialize_password.2.2.2 "secret" [amy] 1 "password1" "newpassword"
      "newpassword" 200 (createAndSendToken "secret" 200 amySaved 200) rfl⟩

/-- Every error User.create forwards is a ValidationError with status 400
(duplicate-key errors included, per the spec taxonomy). -/
theorem createUser_error_status {store : List Identity} {b : SignupBody} {newId : Nat}
    {e : AppError} (h : createUser store b newId = Except.error e) :
    e.statusCode = some 400 := by
  unfold createUser at h
  split at h
  · obtain rfl := Except.error.inj h
    rfl
  · split at h
    · rename_i e' heq
      obtain rfl := Except.error.inj h
      exact validateDoc_eq_some heq
    · exact Except.noConfusion h

/-- A successful User.create passed both the unique-email check and the
schema validators. -/
theorem createUser_ok_checks {store : List Identity} {b : SignupBody} {newId : Nat}
    {p : List Identity × Identity} (h : createUser store b newId = Except.ok p) :
    (findOneByEmail store (lowercase b.email)).isSome = false ∧
      validateDoc (newUserDoc b newId) = none := by
  unfold createUser at h
  split at h
  · exact Except.noConfusion h
  · split at h
    · exact Except.noConfusion h
    · rename_i hdup x heq
      exact ⟨by simpa using hdup, heq⟩

/-- C8: signup rejects with a ValidationError (status 400) whenever the
submitted email is malformed or duplicates a stored identity, whenever the
submitted password is shorter than 8 characters, and whenever password and
passwordConfirm differ. -/
theorem signup_validation_failures :
    (∀ (secret : String) (now : Nat) (store : List Identity) (b : SignupBody) (newId : Nat),
       isEmail (lowercase b.email) = false →
       ∃ e, (signup secret now store b newId).2 = Except.error e ∧ e.statusCode = some 400) ∧
    (∀ (secret : String) (now : Nat) (store : List Identity) (b : SignupBody) (newId : Nat)
       (u : Identity),
       u ∈ store → u.email = lowercase b.email →
       ∃ e, (signup secret now store b newId).2 = Except.error e ∧ e.statusCode = some 400) ∧
    (∀ (secret : String) (now : Nat) (store : List Identity) (b : SignupBody) (newId : Nat),
       b.password.length < 8 →
       ∃ e, (signup secret now store b newId).2 = Except.error e ∧ e.statusCode = some 400) ∧
    (∀ (secret : String) (now : Nat) (store : List Identity) (b : SignupBody) (newId : Nat),
       b.password ≠ b.passwordConfirm →
       ∃ e, (signup secret now store b newId).2 = Except.error e ∧ e.statusCode = some 400) := by
  have herr : ∀ (secret : String) (now : Nat) (store : List Identity) (b : SignupBody)
      (newId : Nat) (e : AppError), createUser store b newId = Except.error e →
      (signup secret now store b newId).2 = Except.error e := by
    intro secret now store b newId e hc
    unfold signup
    rw [hc]
  refine ⟨?_, ?_, ?_, ?_⟩
  · intro secret now store b newId hmal
    cases hc : createUser store b newId with
    | error e => exact ⟨e, herr secret now store b newId e hc, createUser_error_status hc⟩
    | ok p =>
      have hvalid : isEmail ((newUserDoc b newId).email) = true :=
        ((validateDoc_eq_none (createUser_ok_checks hc).2).2.2).1
      have : isEmail (lowercase b.email) = true := hvalid
      rw [hmal] at this
      exact absurd this (by simp)
  · intro secret now store b newId u hmem hmail
    cases hc : createUser store b newId with
    | error e => exact ⟨e, herr secret now store b newId e hc, createUser_error_status hc⟩
    | ok p =>
      have hdup := (createUser_ok_checks hc).1
      have hsome := findOneByEmail_isSome hmem hmail
      rw [hdup] at hsome
      exact absurd hsome (by simp)
  · intro secret now store b newId hlen
    cases hc : createUser store b newId with
    | error e => exact ⟨e, herr secret now store b newId e hc, createUser_error_status hc⟩
    | ok p =>
      obtain ⟨-, -, -, q, hq, -, hqlen, -⟩ :=
        validateDoc_eq_none (createUser_ok_checks hc).2
      have hbq : b.password = q := Option.some.inj hq
      rw [← hbq] at hqlen
      omega
  · intro secret now store b newId hne
    cases hc : createUser store b newId with
    | error e => exact ⟨e, herr secret now store b newId e hc, createUser_error_status hc⟩
    | ok p =>
      obtain ⟨-, -, -, q, hq, -, -, hqc⟩ :=
        validateDoc_eq_none (createUser_ok_checks hc).2
      have h1 : b.password = q := Option.some.inj hq
      have h2 : b.passwordConfirm = q := Option.some.inj hqc
      exact absurd (h1.trans h2.symm) hne

/-- A signup body with a malformed email. -/
def bodyBadEmail : SignupBody := { bodyAmy with email := "amyx.com" }

/-- A signup body with a password below the minimal length. -/
def bodyShort : SignupBody := { bodyAmy with password := "pw1", passwordConfirm := "pw1" }

/-- A signup body whose confirm differs from the password. -/
def bodyMismatch : SignupBody := { bodyAmy with passwordConfirm := "different1" }

/-- Witness for C8: each rejection condition at a concrete body — malformed
email, duplicate email against the stored Amy record, a 3-character
password, and a mismatched confirm. -/
theorem signup_validation_failures_witness :
    (∃ e, (signup "secret" 0 [] bodyBadEmail 1).2 = Except.error e ∧ e.statusCode = some 400) ∧
      (∃ e, (signup "secret" 0 [amy] bodyAmy 2).2 = Except.error e ∧ e.statusCode = some 400) ∧
      (∃ e, (signup "secret" 0 [] bodyShort 1).2 = Except.error e ∧ e.statusCode = some 400) ∧
      (∃ e, (signup "secret" 0 [] bodyMismatch 1).2 = Except.error e ∧ e.statusCode = some 400) :=
  ⟨signup_validation_failures.1 "secret" 0 [] bodyBadEmail 1 (by decide),
   signup_validation_failures.2.1 "secret" 0 [amy] bodyAmy 2 amy (by decide) (by decide),
   signup_validation_failures.2.2.1 "secret" 0 [] bodyShort 1 (by decide),
   signup_validation_failures.2.2.2 "secret" 0 [] bodyMismatch 1 (by decide)⟩

end Natours
